import Mathlib

/-!
Verification development for the `govuk_notify_rs` client library
(`src/auth.rs`, `src/lib.rs`).

Modelling conventions:
* Rust `String`/`&str` values that undergo byte-offset slicing (the API key,
  the JWT token) are modelled as `List Nat` of their UTF-8 bytes.  Other
  strings (URLs, JSON map keys, header names) are modelled as Lean `String`.
* Rust panics (out-of-bounds / non-char-boundary slicing, `unwrap` of an
  error) are modelled by `Option`/`DispatchOutcome.panic`: a `none` result of
  an extraction function or the `panic` outcome of a dispatch call marks the
  execution paths on which the Rust program aborts instead of returning.
* `Utc::now().timestamp() as usize` is modelled by an explicit `now : Nat`
  parameter threaded through `create_jwt` and the dispatch functions.
* The external `jsonwebtoken` crate (`encode` with `Algorithm::HS256`) and
  `serde_json` serialization are embedded concretely below following the JWT
  compact serialization (RFC 7519): base64url-without-padding segments for
  the header JSON, the claims JSON and the HMAC-SHA256 signature, joined by
  a dot (byte 46).
-/

/-- UTF-8 bytes of an ASCII Lean string literal (used to write down concrete
byte strings conveniently). -/
def strBytes (s : String) : List Nat :=
  s.data.map Char.toNat

/-- Rust `str::is_char_boundary`: index 0 and the length are boundaries, and
an interior index is a boundary when the byte there is not a UTF-8
continuation byte (i.e. it is `< 0x80` or `≥ 0xC0`). -/
def isCharBoundary (s : List Nat) (i : Nat) : Bool :=
  i == 0 || i == s.length ||
    (decide (i < s.length) && (decide (s.getD i 0 < 128) || decide (192 ≤ s.getD i 0)))

/-- Embedding of `fn service_id(api_key: &str) -> String` from `src/auth.rs`:
`api_key[(api_key.len() - 73)..=(api_key.len() - 38)].to_string()`.
The slice covers byte positions `len-73 .. len-38` inclusive (36 bytes).
`none` models the Rust panic: index underflow when the key is shorter than 73
bytes, or a slice bound that is not a character boundary. -/
def service_id (api_key : List Nat) : Option (List Nat) :=
  if 73 ≤ api_key.length ∧
     isCharBoundary api_key (api_key.length - 73) = true ∧
     isCharBoundary api_key (api_key.length - 37) = true then
    some ((api_key.drop (api_key.length - 73)).take 36)
  else
    none

/-- Embedding of `fn secret_key(api_key: &str) -> &[u8]` from `src/auth.rs`:
`api_key[(api_key.len() - 36)..api_key.len()].as_bytes()`.
`none` models the Rust panic on underflow or a non-boundary start index. -/
def secret_key (api_key : List Nat) : Option (List Nat) :=
  if 36 ≤ api_key.length ∧ isCharBoundary api_key (api_key.length - 36) = true then
    some (api_key.drop (api_key.length - 36))
  else
    none

/-- Base64url (URL-safe, unpadded) value-to-byte table: six-bit value `n` to
the ASCII byte of its alphabet character `A-Z a-z 0-9 - _`. -/
def b64c (n : Nat) : Nat :=
  if n < 26 then 65 + n
  else if n < 52 then 71 + n
  else if n < 62 then n - 4
  else if n = 62 then 45
  else 95

/-- Inverse of `b64c` on the base64url alphabet. -/
def b64v (c : Nat) : Nat :=
  if 65 ≤ c ∧ c ≤ 90 then c - 65
  else if 97 ≤ c ∧ c ≤ 122 then c - 71
  else if 48 ≤ c ∧ c ≤ 57 then c + 4
  else if c = 45 then 62
  else 63

/-- Base64url encoding without padding, on UTF-8 bytes, as used by the
`jsonwebtoken` crate (`URL_SAFE_NO_PAD`). -/
def encodeB64 : List Nat → List Nat
  | [] => []
  | [a] => [b64c (a / 4), b64c (a % 4 * 16)]
  | [a, b] => [b64c (a / 4), b64c (a % 4 * 16 + b / 16), b64c (b % 16 * 4)]
  | a :: b :: c :: rest =>
      b64c (a / 4) :: b64c (a % 4 * 16 + b / 16) :: b64c (b % 16 * 4 + c / 64) ::
        b64c (c % 64) :: encodeB64 rest

/-- Base64url decoding (partial inverse of `encodeB64`, used only to prove
that the encoding is injective). -/
def decodeB64 : List Nat → List Nat
  | [c1, c2] => [b64v c1 * 4 + b64v c2 / 16]
  | [c1, c2, c3] => [b64v c1 * 4 + b64v c2 / 16, b64v c2 % 16 * 16 + b64v c3 / 4]
  | c1 :: c2 :: c3 :: c4 :: rest =>
      (b64v c1 * 4 + b64v c2 / 16) :: (b64v c2 % 16 * 16 + b64v c3 / 4) ::
        (b64v c3 % 4 * 64 + b64v c4) :: decodeB64 rest
  | _ => []

/-- Membership in the base64url alphabet `A-Z a-z 0-9 - _`. -/
def isB64Byte (y : Nat) : Bool :=
  (decide (65 ≤ y) && decide (y ≤ 90)) || (decide (97 ≤ y) && decide (y ≤ 122)) ||
    (decide (48 ≤ y) && decide (y ≤ 57)) || y == 45 || y == 95

/-- SHA-256 right rotation on 32-bit words represented as `Nat < 2^32`. -/
def rotr32 (n x : Nat) : Nat :=
  x / 2 ^ n + x % 2 ^ n * 2 ^ (32 - n)

/-- SHA-256 big sigma-0. -/
def bsig0 (x : Nat) : Nat := rotr32 2 x ^^^ rotr32 13 x ^^^ rotr32 22 x

/-- SHA-256 big sigma-1. -/
def bsig1 (x : Nat) : Nat := rotr32 6 x ^^^ rotr32 11 x ^^^ rotr32 25 x

/-- SHA-256 small sigma-0. -/
def ssig0 (x : Nat) : Nat := rotr32 7 x ^^^ rotr32 18 x ^^^ (x >>> 3)

/-- SHA-256 small sigma-1. -/
def ssig1 (x : Nat) : Nat := rotr32 17 x ^^^ rotr32 19 x ^^^ (x >>> 10)

/-- SHA-256 choice function. -/
def shaCh (e f g : Nat) : Nat := (e &&& f) ^^^ ((e ^^^ 4294967295) &&& g)

/-- SHA-256 majority function. -/
def shaMaj (a b c : Nat) : Nat := (a &&& b) ^^^ (a &&& c) ^^^ (b &&& c)

/-- SHA-256 round constants (FIPS 180-4, written in decimal). -/
def shaK : List Nat :=
  [1116352408, 1899447441, 3049323471, 3921009573, 961987163,
   1508970993, 2453635748, 2870763221, 3624381080, 310598401,
   607225278, 1426881987, 1925078388, 2162078206, 2614888103,
   3248222580, 3835390401, 4022224774, 264347078, 604807628,
   770255983, 1249150122, 1555081692, 1996064986, 2554220882,
   2821834349, 2952996808, 3210313671, 3336571891, 3584528711,
   113926993, 338241895, 666307205, 773529912, 1294757372,
   1396182291, 1695183700, 1986661051, 2177026350, 2456956037,
   2730485921, 2820302411, 3259730800, 3345764771, 3516065817,
   3600352804, 4094571909, 275423344, 430227734, 506948616,
   659060556, 883997877, 958139571, 1322822218, 1537002063,
   1747873779, 1955562222, 2024104815, 2227730452, 2361852424,
   2428436474, 2756734187, 3204031479, 3329325298]

/-- SHA-256 initial hash value (FIPS 180-4, written in decimal). -/
def shaH0 : List Nat :=
  [1779033703, 3144134277, 1013904242, 2773480762,
   1359893119, 2600822924, 528734635, 1541459225]

/-- Big-endian 64-bit length field of the SHA-256 padding. -/
def be64 (n : Nat) : List Nat :=
  [n / 2 ^ 56 % 256, n / 2 ^ 48 % 256, n / 2 ^ 40 % 256, n / 2 ^ 32 % 256,
   n / 2 ^ 24 % 256, n / 2 ^ 16 % 256, n / 2 ^ 8 % 256, n % 256]

/-- SHA-256 message padding: append `0x80`, zero bytes up to 56 mod 64, then
the bit length as a big-endian 64-bit integer. -/
def sha256pad (msg : List Nat) : List Nat :=
  msg ++ 128 :: List.replicate ((119 - msg.length % 64) % 64) 0 ++ be64 (msg.length * 8)

/-- Group bytes into big-endian 32-bit words. -/
def toWords : List Nat → List Nat
  | a :: b :: c :: d :: rest => (a * 16777216 + b * 65536 + c * 256 + d) :: toWords rest
  | _ => []

/-- SHA-256 compression of one 16-word block into the running hash state. -/
def shaCompress (hs block : List Nat) : List Nat :=
  let w := (List.range 48).foldl
    (fun acc _ =>
      let n := acc.length
      acc ++ [(ssig1 (acc.getD (n - 2) 0) + acc.getD (n - 7) 0 +
               ssig0 (acc.getD (n - 15) 0) + acc.getD (n - 16) 0) % 4294967296])
    block
  let st := (List.range 64).foldl
    (fun st i =>
      match st with
      | [a, b, c, d, e, f, g, h] =>
          let t1 := (h + bsig1 e + shaCh e f g + shaK.getD i 0 + w.getD i 0) % 4294967296
          let t2 := (bsig0 a + shaMaj a b c) % 4294967296
          [(t1 + t2) % 4294967296, a, b, c, (d + t1) % 4294967296, e, f, g]
      | other => other)
    hs
  (List.range 8).map (fun i => (hs.getD i 0 + st.getD i 0) % 4294967296)

/-- Fold the SHA-256 compression over all 16-word blocks. -/
def sha256run (hs ws : List Nat) : List Nat :=
  if 16 ≤ ws.length then sha256run (shaCompress hs (ws.take 16)) (ws.drop 16)
  else hs
termination_by ws.length
decreasing_by simp_all; omega

/-- Big-endian bytes of a 32-bit word. -/
def word2bytes (w : Nat) : List Nat :=
  [w / 16777216 % 256, w / 65536 % 256, w / 256 % 256, w % 256]

/-- SHA-256 of a byte string. -/
def sha256 (msg : List Nat) : List Nat :=
  ((sha256run shaH0 (toWords (sha256pad msg))).map word2bytes).flatten

/-- HMAC-SHA256 (RFC 2104) with byte-string key and message, as used by
`jsonwebtoken`'s `EncodingKey::from_secret` signing for `Algorithm::HS256`. -/
def hmacSha256 (key msg : List Nat) : List Nat :=
  let k0 := if 64 < key.length then sha256 key else key
  let kp := k0 ++ List.replicate (64 - k0.length) 0
  sha256 (kp.map (fun b => b ^^^ 92) ++ sha256 (kp.map (fun b => b ^^^ 54) ++ msg))

/-- Serialized JWT header produced by `Header::new(Algorithm::HS256)` in
`create_jwt`: the serde serialization of the `jsonwebtoken` `Header` struct
with `typ = Some("JWT")` and `alg = HS256`. -/
def headerJson : List Nat :=
  strBytes ("\x7b\"typ\":\"JWT\",\"alg\":\"HS256\"\x7d")

/-- Lowercase hex digit byte, as used by serde_json control-character
escapes. -/
def hexDigit (n : Nat) : Nat :=
  if n < 10 then 48 + n else 87 + n

/-- serde_json escaping of one byte inside a JSON string literal. -/
def escByte (b : Nat) : List Nat :=
  if b = 34 then [92, 34]
  else if b = 92 then [92, 92]
  else if b = 8 then [92, 98]
  else if b = 9 then [92, 116]
  else if b = 10 then [92, 110]
  else if b = 12 then [92, 102]
  else if b = 13 then [92, 114]
  else if b < 32 then [92, 117, 48, 48, hexDigit (b / 16), hexDigit (b % 16)]
  else [b]

/-- serde_json escaping of a byte string inside a JSON string literal. -/
def escapeJson (bs : List Nat) : List Nat :=
  (bs.map escByte).flatten

/-- Decimal rendering of a natural number as ASCII bytes (serde_json integer
serialization of the `iat: usize` field). -/
def toDecBytes (n : Nat) : List Nat :=
  if n = 0 then [48] else ((Nat.digits 10 n).reverse).map (fun d => d + 48)

/-- Serialized claims of the `Claims \x7b iss: String, iat: usize \x7d` struct of
`src/auth.rs`: serde field order `iss` then `iat`. -/
def claimsJson (iss : List Nat) (iat : Nat) : List Nat :=
  strBytes ("\x7b\"iss\":\"") ++ escapeJson iss ++ strBytes ("\",\"iat\":") ++
    toDecBytes iat ++ strBytes ("\x7d")

/-- JWT compact serialization produced by `jsonwebtoken::encode` for header
`HS256`, the claims of `src/auth.rs`, and key `EncodingKey::from_secret sec`:
`base64url(header) . base64url(claims) . base64url(hmac_sha256 sec message)`
where the dot is byte 46 and `message` is the first two joined segments. -/
def jwtEncode (iss sec : List Nat) (iat : Nat) : List Nat :=
  encodeB64 headerJson ++ 46 :: encodeB64 (claimsJson iss iat) ++ 46 ::
    encodeB64 (hmacSha256 sec (encodeB64 headerJson ++ 46 :: encodeB64 (claimsJson iss iat)))

/-- Embedding of `pub fn create_jwt(api_key: &String) -> Result<String, ...>`
from `src/auth.rs`.  The clock read `Utc::now().timestamp() as usize` is the
explicit `now` parameter.  `none` models the panic propagated out of
`service_id`/`secret_key` on a malformed key; for `Algorithm::HS256` the
`jsonwebtoken::encode` call itself cannot return an `Err`. -/
def create_jwt (api_key : List Nat) (now : Nat) : Option (List Nat) :=
  match service_id api_key, secret_key api_key with
  | some iss, some sec => some (jwtEncode iss sec now)
  | _, _ => none

/-- Embedding of `serde_json::Value`. -/
inductive JsonValue where
  | null
  | boolV (b : Bool)
  | num (n : Int)
  | str (s : String)
  | arr (elems : List JsonValue)
  | obj (entries : List (String × JsonValue))

/-- Embedding of `serde_json::Map` as an association list; `mapInsert` has
the key-replacing semantics of `Map::insert` (entry order is the insertion
order; only the key set and the key-to-value mapping are relied upon). -/
def mapInsert (m : List (String × JsonValue)) (k : String) (v : JsonValue) :
    List (String × JsonValue) :=
  match m with
  | [] => [(k, v)]
  | (k0, v0) :: rest => if k0 = k then (k, v) :: rest else (k0, v0) :: mapInsert rest k v

/-- Lookup in the association-list embedding of `serde_json::Map`. -/
def mapLookup (m : List (String × JsonValue)) (k : String) : Option JsonValue :=
  match m with
  | [] => none
  | (k0, v0) :: rest => if k0 = k then some v0 else mapLookup rest k

/-- Key list of the association-list embedding of `serde_json::Map`. -/
def mapKeys (m : List (String × JsonValue)) : List String :=
  m.map Prod.fst

/-- Embedding of `enum NotificationType` from `src/lib.rs`. -/
inductive NotificationType where
  | EMAIL
  | SMS

/-- Embedding of `pub struct NotifyClient` from `src/lib.rs` (the stateless
`reqwest::Client` field carries no modelled state and is omitted). -/
structure NotifyClient where
  notify_server : String
  api_key : List Nat

/-- Embedding of `static DEFAULT_BASE_URL` from `src/lib.rs`. -/
def DEFAULT_BASE_URL : String :=
  "https://api.notifications.service.gov.uk"

/-- Embedding of `NotifyClient::new` from `src/lib.rs`: stores the key
unchanged and defaults the server URL. -/
def NotifyClient.new (api_key : List Nat) (notify_server : Option String) : NotifyClient :=
  { notify_server :=
      match notify_server with
      | some s => s
      | none => DEFAULT_BASE_URL,
    api_key := api_key }

/-- The outbound HTTP request assembled by `send_notification`: method, full
URL, headers (values as bytes, since the Authorization value embeds the raw
token bytes), and the JSON object handed to `.json(&body)`. -/
structure HttpRequest where
  method : String
  url : String
  headers : List (String × List Nat)
  body : List (String × JsonValue)

/-- Result of one dispatch call: either the process panics before any network
activity (`panic`), or exactly one HTTP request is handed to the transport
(`sent`).  The transport's response is outside the model. -/
inductive DispatchOutcome where
  | panic
  | sent (req : HttpRequest)

/-- The optional-field merging of `send_notification` (lines 124-134 of
`src/lib.rs`): each optional field is inserted only when supplied. -/
def mergedBody (body : List (String × JsonValue))
    (personalisation : Option (List (String × JsonValue)))
    (reference : Option String) (sms_sender_id : Option String) :
    List (String × JsonValue) :=
  let b1 := match personalisation with
    | some p => mapInsert body ("personalisation") (JsonValue.obj p)
    | none => body
  let b2 := match reference with
    | some r => mapInsert b1 ("reference") (JsonValue.str r)
    | none => b1
  match sms_sender_id with
  | some s => mapInsert b2 ("sms_sender_id") (JsonValue.str s)
  | none => b2

/-- Embedding of `async fn send_notification` from `src/lib.rs`.  The
`create_jwt(...).unwrap()` call panics when token derivation fails, before
the request is built or sent. -/
def send_notification (c : NotifyClient) (notification_type : NotificationType)
    (body : List (String × JsonValue))
    (personalisation : Option (List (String × JsonValue)))
    (reference : Option String) (sms_sender_id : Option String) (now : Nat) :
    DispatchOutcome :=
  let url := match notification_type with
    | NotificationType.EMAIL => "/v2/notifications/email"
    | NotificationType.SMS => "/v2/notifications/sms"
  match create_jwt c.api_key now with
  | none => DispatchOutcome.panic
  | some token =>
      DispatchOutcome.sent
        { method := "POST"
          url := c.notify_server ++ url
          headers :=
            [(("User-Agent"), strBytes ("rust-client-pre-alpha")),
             (("Authorization"), strBytes ("Bearer ") ++ token),
             (("Content-Type"), strBytes ("application/json"))]
          body := mergedBody body personalisation reference sms_sender_id }

/-- Embedding of `pub async fn send_email` from `src/lib.rs`. -/
def send_email (c : NotifyClient) (email_address template_id : String)
    (personalisation : Option (List (String × JsonValue)))
    (reference : Option String) (now : Nat) : DispatchOutcome :=
  send_notification c NotificationType.EMAIL
    (mapInsert (mapInsert [] ("email_address") (JsonValue.str email_address))
      ("template_id") (JsonValue.str template_id))
    personalisation reference none now

/-- Embedding of `pub async fn send_sms` from `src/lib.rs`. -/
def send_sms (c : NotifyClient) (phone_number template_id : String)
    (personalisation : Option (List (String × JsonValue)))
    (reference : Option String) (sms_sender_id : Option String) (now : Nat) :
    DispatchOutcome :=
  send_notification c NotificationType.SMS
    (mapInsert (mapInsert [] ("phone_number") (JsonValue.str phone_number))
      ("template_id") (JsonValue.str template_id))
    personalisation reference sms_sender_id now

/-- The API key of the repository's tests and doc examples. -/
def exKey : List Nat :=
  strBytes ("my_test_key-26785a09-ab16-4eb0-8407-a37497a57506-3d844edf-8d35-48ac-975b-e847b4f122b0")

/-- Issuer UUID embedded in `exKey`. -/
def exIss : List Nat :=
  strBytes ("26785a09-ab16-4eb0-8407-a37497a57506")

/-- Secret UUID embedded in `exKey`. -/
def exSec : List Nat :=
  strBytes ("3d844edf-8d35-48ac-975b-e847b4f122b0")

/-- Decoding table inverts the encoding table on six-bit values. -/
theorem b64v_b64c : ∀ n < 64, b64v (b64c n) = n := by decide

/-- No base64url alphabet byte is the dot (byte 46). -/
theorem b64c_ne_dot (n : Nat) : b64c n ≠ 46 := by
  unfold b64c
  split <;> try split <;> try split <;> try split
  all_goals omega

/-- Every value of the encoding table lies in the base64url alphabet. -/
theorem b64c_isB64 (n : Nat) : isB64Byte (b64c n) = true := by
  unfold b64c isB64Byte
  split <;> try split <;> try split <;> try split
  all_goals simp <;> omega

/-- Every byte of a base64url encoding is a value of the encoding table. -/
theorem encodeB64_shape : ∀ (xs : List Nat), ∀ y ∈ encodeB64 xs, ∃ n, y = b64c n
  | [], _, hy => by simp [encodeB64] at hy
  | [a], y, hy => by
      simp only [encodeB64, List.mem_cons, List.not_mem_nil, or_false] at hy
      rcases hy with h | h <;> exact ⟨_, h⟩
  | [a, b], y, hy => by
      simp only [encodeB64, List.mem_cons, List.not_mem_nil, or_false] at hy
      rcases hy with h | h | h <;> exact ⟨_, h⟩
  | a :: b :: c :: rest, y, hy => by
      simp only [encodeB64, List.mem_cons] at hy
      rcases hy with h | h | h | h | h
      · exact ⟨_, h⟩
      · exact ⟨_, h⟩
      · exact ⟨_, h⟩
      · exact ⟨_, h⟩
      · exact encodeB64_shape rest y h

/-- Base64url encodings never contain the dot byte. -/
theorem encodeB64_no_dot (xs : List Nat) : 46 ∉ encodeB64 xs := by
  intro hmem
  obtain ⟨n, hn⟩ := encodeB64_shape xs 46 hmem
  exact b64c_ne_dot n hn.symm

/-- Base64url encodings consist of alphabet bytes only. -/
theorem encodeB64_isB64 (xs : List Nat) : ∀ y ∈ encodeB64 xs, isB64Byte y = true := by
  intro y hy
  obtain ⟨n, hn⟩ := encodeB64_shape xs y hy
  rw [hn]
  exact b64c_isB64 n

/-- Decoding inverts encoding on byte strings. -/
theorem decode_encode : ∀ (xs : List Nat), (∀ b ∈ xs, b < 256) →
    decodeB64 (encodeB64 xs) = xs
  | [], _ => rfl
  | [a], h => by
      have ha : a < 256 := h a (by simp)
      simp only [encodeB64, decodeB64]
      rw [b64v_b64c _ (by omega), b64v_b64c _ (by omega)]
      simp only [List.cons.injEq, and_true]
      omega
  | [a, b], h => by
      have ha : a < 256 := h a (by simp)
      have hb : b < 256 := h b (by simp)
      simp only [encodeB64, decodeB64]
      rw [b64v_b64c _ (by omega), b64v_b64c _ (by omega), b64v_b64c _ (by omega)]
      simp only [List.cons.injEq, and_true]
      constructor <;> omega
  | a :: b :: c :: rest, h => by
      have ha : a < 256 := h a (by simp)
      have hb : b < 256 := h b (by simp)
      have hc : c < 256 := h c (by simp)
      have ih := decode_encode rest (fun x hx => h x (by simp [hx]))
      simp only [encodeB64, decodeB64]
      rw [b64v_b64c _ (by omega), b64v_b64c _ (by omega), b64v_b64c _ (by omega),
        b64v_b64c _ (by omega), ih]
      simp only [List.cons.injEq, and_true]
      refine ⟨by omega, by omega, by omega⟩

/-- Base64url encoding is injective on byte strings. -/
theorem encodeB64_inj (xs ys : List Nat) (hx : ∀ b ∈ xs, b < 256)
    (hy : ∀ b ∈ ys, b < 256) (h : encodeB64 xs = encodeB64 ys) : xs = ys := by
  rw [← decode_encode xs hx, ← decode_encode ys hy, h]

/-- Splitting a byte string at a dot is unambiguous when neither prefix part
contains a dot. -/
theorem append_dot_inj (p1 : List Nat) : ∀ (p2 s1 s2 : List Nat), 46 ∉ p1 → 46 ∉ p2 →
    p1 ++ 46 :: s1 = p2 ++ 46 :: s2 → p1 = p2 ∧ s1 = s2 := by
  induction p1 with
  | nil =>
      intro p2 s1 s2 _ h2 h
      cases p2 with
      | nil => simpa using h
      | cons x t =>
          simp only [List.nil_append, List.cons_append, List.cons.injEq] at h
          rcases h with ⟨hx, _⟩
          exact absurd (by simp [← hx]) h2
  | cons a t ih =>
      intro p2 s1 s2 h1 h2 h
      cases p2 with
      | nil =>
          simp only [List.nil_append, List.cons_append, List.cons.injEq] at h
          rcases h with ⟨hx, _⟩
          exact absurd (by simp [hx]) h1
      | cons x t2 =>
          simp only [List.cons_append, List.cons.injEq] at h
          rcases h with ⟨rfl, h⟩
          have ht := ih t2 s1 s2 (fun hm => h1 (by simp [hm])) (fun hm => h2 (by simp [hm])) h
          exact ⟨by rw [ht.1], ht.2⟩

/-- Decimal rendering is injective. -/
theorem toDecBytes_inj (m n : Nat) (h : toDecBytes m = toDecBytes n) : m = n := by
  have hmap : Function.Injective (List.map (fun d : Nat => d + 48)) :=
    List.map_injective_iff.mpr (fun x y hxy => by omega)
  have key : ∀ k : Nat, k ≠ 0 → ((Nat.digits 10 k).reverse).map (fun d => d + 48) = [48] → False := by
    intro k hk hmapeq
    have h0 : (Nat.digits 10 k).reverse = [0] := by
      have := @hmap ((Nat.digits 10 k).reverse) [0] (by simpa using hmapeq)
      simpa using this
    have hd : Nat.digits 10 k = [0] := by
      have := congrArg List.reverse h0
      simpa using this
    have := Nat.ofDigits_digits 10 k
    rw [hd] at this
    simp [Nat.ofDigits] at this
    omega
  unfold toDecBytes at h
  by_cases hm : m = 0 <;> by_cases hn : n = 0
  · omega
  · rw [if_pos hm, if_neg hn] at h
    exact absurd h.symm (fun hh => key n hn hh)
  · rw [if_neg hm, if_pos hn] at h
    exact absurd h (fun hh => key m hm hh)
  · rw [if_neg hm, if_neg hn] at h
    have h1 := hmap h
    have h2 := List.reverse_injective h1
    have := congrArg (Nat.ofDigits 10) h2
    rwa [Nat.ofDigits_digits, Nat.ofDigits_digits] at this

/-- The serialized claims determine the `iat` value. -/
theorem claimsJson_inj_iat (iss : List Nat) (t1 t2 : Nat)
    (h : claimsJson iss t1 = claimsJson iss t2) : t1 = t2 := by
  unfold claimsJson at h
  exact toDecBytes_inj t1 t2 (List.append_cancel_left (List.append_cancel_right h))

set_option maxRecDepth 8000

/-- Escaping a byte below 256 yields bytes below 256. -/
theorem escByte_lt : ∀ b < 256, ∀ y ∈ escByte b, y < 256 := by decide

/-- Escaping a byte string below 256 yields bytes below 256. -/
theorem escapeJson_lt (bs : List Nat) (h : ∀ b ∈ bs, b < 256) :
    ∀ y ∈ escapeJson bs, y < 256 := by
  intro y hy
  unfold escapeJson at hy
  simp only [List.mem_flatten, List.mem_map] at hy
  obtain ⟨l, ⟨b, hb, rfl⟩, hyl⟩ := hy
  exact escByte_lt b (h b hb) y hyl

/-- Decimal renderings are ASCII digits, in particular bytes below 256. -/
theorem toDecBytes_lt (n : Nat) : ∀ y ∈ toDecBytes n, y < 256 := by
  intro y hy
  unfold toDecBytes at hy
  split at hy
  · simp at hy
    omega
  · simp only [List.mem_map, List.mem_reverse] at hy
    obtain ⟨d, hd, rfl⟩ := hy
    have := Nat.digits_lt_base (by norm_num) hd
    omega

/-- The serialized claims consist of bytes below 256 whenever the issuer
bytes do. -/
theorem claimsJson_lt (iss : List Nat) (hiss : ∀ b ∈ iss, b < 256) (t : Nat) :
    ∀ y ∈ claimsJson iss t, y < 256 := by
  intro y hy
  unfold claimsJson at hy
  simp only [List.mem_append] at hy
  rcases hy with ((((hy | hy) | hy) | hy) | hy)
  · exact (by decide : ∀ y ∈ strBytes ("\x7b\"iss\":\""), y < 256) y hy
  · exact escapeJson_lt iss hiss y hy
  · exact (by decide : ∀ y ∈ strBytes ("\",\"iat\":"), y < 256) y hy
  · exact toDecBytes_lt t y hy
  · exact (by decide : ∀ y ∈ strBytes ("\x7d"), y < 256) y hy

/-- Characterization of a successful `service_id` run: the key is at least
73 bytes long and the result is the 36-byte slice starting at `len - 73`. -/
theorem service_id_some (key iss : List Nat) (h : service_id key = some iss) :
    73 ≤ key.length ∧ iss = (key.drop (key.length - 73)).take 36 := by
  unfold service_id at h
  split at h
  · rename_i hcond
    exact ⟨hcond.1, (Option.some.injEq _ _ ▸ h).symm⟩
  · exact absurd h (by simp)

/-- Characterization of a successful `secret_key` run. -/
theorem secret_key_some (key sec : List Nat) (h : secret_key key = some sec) :
    36 ≤ key.length ∧ sec = key.drop (key.length - 36) := by
  unfold secret_key at h
  split at h
  · rename_i hcond
    exact ⟨hcond.1, (Option.some.injEq _ _ ▸ h).symm⟩
  · exact absurd h (by simp)

/-- The issuer bytes are bytes of the key. -/
theorem service_id_subset (key iss : List Nat) (h : service_id key = some iss) :
    ∀ b ∈ iss, b ∈ key := by
  intro b hb
  rcases service_id_some key iss h with ⟨-, rfl⟩
  exact List.drop_subset _ _ (List.take_subset _ _ hb)

/-- Tokens encoded from the same issuer and secret at different `iat`
values differ. -/
theorem jwtEncode_inj_iat (iss sec : List Nat) (hiss : ∀ b ∈ iss, b < 256)
    (t1 t2 : Nat) (h : jwtEncode iss sec t1 = jwtEncode iss sec t2) : t1 = t2 := by
  unfold jwtEncode at h
  rw [List.append_assoc, List.append_assoc] at h
  have h1 := List.append_cancel_left h
  simp only [List.cons_append, List.cons.injEq, true_and] at h1
  have hsplit := append_dot_inj _ _ _ _ (encodeB64_no_dot (claimsJson iss t1))
    (encodeB64_no_dot (claimsJson iss t2)) h1
  have hclaims := encodeB64_inj _ _ (claimsJson_lt iss hiss t1) (claimsJson_lt iss hiss t2)
    hsplit.1
  exact claimsJson_inj_iat iss t1 t2 hclaims

/-- Lookup after inserting the same key. -/
theorem mapLookup_insert_self (m : List (String × JsonValue)) (k : String) (v : JsonValue) :
    mapLookup (mapInsert m k v) k = some v := by
  induction m with
  | nil => simp [mapInsert, mapLookup]
  | cons kv rest ih =>
      obtain ⟨k0, v0⟩ := kv
      by_cases hk : k0 = k <;> simp [mapInsert, mapLookup, hk, ih]

/-- Lookup after inserting a different key. -/
theorem mapLookup_insert_ne (m : List (String × JsonValue)) (k j : String) (v : JsonValue)
    (h : j ≠ k) : mapLookup (mapInsert m j v) k = mapLookup m k := by
  induction m with
  | nil => simp [mapInsert, mapLookup, h]
  | cons kv rest ih =>
      obtain ⟨k0, v0⟩ := kv
      by_cases hk : k0 = j <;> simp [mapInsert, mapLookup, hk, h, ih]

/-- Inserting an absent key appends it to the key list. -/
theorem mapKeys_insert_of_none (m : List (String × JsonValue)) (k : String) (v : JsonValue)
    (h : mapLookup m k = none) : mapKeys (mapInsert m k v) = mapKeys m ++ [k] := by
  induction m with
  | nil => simp [mapInsert, mapKeys]
  | cons kv rest ih =>
      obtain ⟨k0, v0⟩ := kv
      unfold mapLookup at h
      by_cases hk : k0 = k
      · rw [if_pos hk] at h
        cases h
      · rw [if_neg hk] at h
        calc mapKeys (mapInsert ((k0, v0) :: rest) k v)
            = k0 :: mapKeys (mapInsert rest k v) := by simp [mapInsert, mapKeys, hk]
          _ = k0 :: (mapKeys rest ++ [k]) := by rw [ih h]
          _ = mapKeys ((k0, v0) :: rest) ++ [k] := by simp [mapKeys]

/-- A key is listed exactly when its lookup succeeds. -/
theorem mem_mapKeys_iff (m : List (String × JsonValue)) (k : String) :
    k ∈ mapKeys m ↔ (mapLookup m k).isSome = true := by
  induction m with
  | nil => simp [mapKeys, mapLookup]
  | cons kv rest ih =>
      obtain ⟨k0, v0⟩ := kv
      by_cases hk : k0 = k
      · subst hk
        simp [mapKeys, mapLookup]
      · rw [show mapKeys ((k0, v0) :: rest) = k0 :: mapKeys rest from rfl, List.mem_cons,
          show mapLookup ((k0, v0) :: rest) k = mapLookup rest k from by simp [mapLookup, hk]]
        constructor
        · rintro (rfl | hmem)
          · exact absurd rfl hk
          · exact ih.mp hmem
        · intro hs
          exact Or.inr (ih.mpr hs)

/-- The exact header list attached by `send_notification`. -/
def authHeaders (tok : List Nat) : List (String × List Nat) :=
  [(("User-Agent"), strBytes ("rust-client-pre-alpha")),
   (("Authorization"), strBytes ("Bearer ") ++ tok),
   (("Content-Type"), strBytes ("application/json"))]

/-- Unfolding of a successful `send_email` call. -/
theorem send_email_sent (c : NotifyClient) (ea tid : String)
    (p : Option (List (String × JsonValue))) (r : Option String) (now : Nat)
    (tok : List Nat) (htok : create_jwt c.api_key now = some tok) :
    send_email c ea tid p r now = DispatchOutcome.sent
      { method := "POST"
        url := c.notify_server ++ ("/v2/notifications/email")
        headers := authHeaders tok
        body := mergedBody [(("email_address"), JsonValue.str ea),
          (("template_id"), JsonValue.str tid)] p r none } := by
  unfold send_email send_notification authHeaders
  rw [htok]
  simp [mapInsert]

/-- Unfolding of a successful `send_sms` call. -/
theorem send_sms_sent (c : NotifyClient) (pn tid : String)
    (p : Option (List (String × JsonValue))) (r sid : Option String) (now : Nat)
    (tok : List Nat) (htok : create_jwt c.api_key now = some tok) :
    send_sms c pn tid p r sid now = DispatchOutcome.sent
      { method := "POST"
        url := c.notify_server ++ ("/v2/notifications/sms")
        headers := authHeaders tok
        body := mergedBody [(("phone_number"), JsonValue.str pn),
          (("template_id"), JsonValue.str tid)] p r sid } := by
  unfold send_sms send_notification authHeaders
  rw [htok]
  simp [mapInsert]

/-- Lookup of the personalisation key in the merged body. -/
theorem mergedBody_personalisation (body : List (String × JsonValue))
    (p : Option (List (String × JsonValue))) (r sid : Option String)
    (hb : mapLookup body ("personalisation") = none) :
    mapLookup (mergedBody body p r sid) ("personalisation") = Option.map JsonValue.obj p := by
  unfold mergedBody
  cases p <;> cases r <;> cases sid <;>
    simp [mapLookup_insert_self, mapLookup_insert_ne, hb]

/-- Lookup of the reference key in the merged body. -/
theorem mergedBody_reference (body : List (String × JsonValue))
    (p : Option (List (String × JsonValue))) (r sid : Option String)
    (hb : mapLookup body ("reference") = none) :
    mapLookup (mergedBody body p r sid) ("reference") = Option.map JsonValue.str r := by
  unfold mergedBody
  cases p <;> cases r <;> cases sid <;>
    simp [mapLookup_insert_self, mapLookup_insert_ne, hb]

/-- Lookup of the sms_sender_id key in the merged body. -/
theorem mergedBody_sms_sender_id (body : List (String × JsonValue))
    (p : Option (List (String × JsonValue))) (r sid : Option String)
    (hb : mapLookup body ("sms_sender_id") = none) :
    mapLookup (mergedBody body p r sid) ("sms_sender_id") = Option.map JsonValue.str sid := by
  unfold mergedBody
  cases p <;> cases r <;> cases sid <;>
    simp [mapLookup_insert_self, mapLookup_insert_ne, hb]

/-- With no optional field supplied the body is untouched. -/
theorem mergedBody_none (body : List (String × JsonValue)) :
    mergedBody body none none none = body := rfl

/-- An element fetched inside the bounds of a list is a member. -/
theorem getD_mem (l : List Nat) : ∀ i, i < l.length → ∀ d, l.getD i d ∈ l := by
  induction l with
  | nil => intro i hi; simp at hi
  | cons a t ih =>
      intro i hi d
      cases i with
      | zero => simp [List.getD]
      | succ j =>
          have := ih j (by simpa using hi) d
          simp [List.getD] at this ⊢
          exact Or.inr this

/-- In an all-ASCII byte string every index up to the length is a character
boundary. -/
theorem ascii_isCharBoundary (key : List Nat) (hascii : ∀ b ∈ key, b < 128)
    (i : Nat) (hi : i ≤ key.length) : isCharBoundary key i = true := by
  unfold isCharBoundary
  rcases Nat.lt_or_ge i key.length with hlt | hge
  · have hb := hascii _ (getD_mem key i hlt 0)
    simp only [Bool.or_eq_true, beq_iff_eq, Bool.and_eq_true, decide_eq_true_eq]
    exact Or.inr ⟨hlt, Or.inl hb⟩
  · have : i = key.length := le_antisymm hi hge
    simp [this]

/-- Pointwise description of the 36-byte slice starting at `s`. -/
theorem slice_getD (key : List Nat) (s i : Nat) (hi : i < 36) :
    ((key.drop s).take 36).getD i 0 = key.getD (s + i) 0 := by
  simp [List.getD_eq_getElem?_getD, List.getElem?_take_of_lt hi, List.getElem?_drop]

/-- Issuer extraction on the test key of the repository. -/
theorem exKey_service_id : service_id exKey = some exIss := by decide

/-- Secret extraction on the test key of the repository. -/
theorem exKey_secret_key : secret_key exKey = some exSec := by decide

/-- Token derivation on the test key of the repository. -/
theorem exKey_create_jwt (t : Nat) : create_jwt exKey t = some (jwtEncode exIss exSec t) := by
  unfold create_jwt
  rw [exKey_service_id, exKey_secret_key]

/-- A key shorter than 73 bytes makes token derivation fail (the Rust code
panics on the out-of-bounds slice inside `service_id`). -/
theorem create_jwt_short (key : List Nat) (h : key.length < 73) (now : Nat) :
    create_jwt key now = none := by
  unfold create_jwt service_id
  rw [if_neg (fun hc => absurd hc.1 (by omega))]

/-- C1 counterexample: a 74-byte key starting with the two-byte UTF-8
character U+00E9 has byte length at least 73, yet `service_id` panics (the
slice start `len - 73` falls inside the character) instead of returning the
36-character substring the claim promises. -/
theorem service_id_multibyte_oob :
    73 ≤ (195 :: 169 :: List.replicate 72 97 : List Nat).length ∧
    service_id (195 :: 169 :: List.replicate 72 97) = none := by decide

/-- C1 (amended): for every API key of byte length at least 73 whose offsets
`len-73`, `len-37` and `len-36` fall on character boundaries (in particular
every ASCII key), `service_id` returns exactly the 36 bytes at 0-indexed
positions `len-73` through `len-38` inclusive and `secret_key` returns
exactly the bytes at positions `len-36` through `len-1` inclusive; on the
documented example key the results are the two example UUID strings. -/
theorem extraction_fixed_offsets :
    (∀ key : List Nat, 73 ≤ key.length →
      isCharBoundary key (key.length - 73) = true →
      isCharBoundary key (key.length - 37) = true →
      isCharBoundary key (key.length - 36) = true →
      service_id key = some ((key.drop (key.length - 73)).take 36) ∧
      secret_key key = some (key.drop (key.length - 36)) ∧
      ((key.drop (key.length - 73)).take 36).length = 36 ∧
      (key.drop (key.length - 36)).length = 36 ∧
      (∀ i, i < 36 →
        ((key.drop (key.length - 73)).take 36).getD i 0 = key.getD (key.length - 73 + i) 0) ∧
      (∀ i, i < 36 →
        (key.drop (key.length - 36)).getD i 0 = key.getD (key.length - 36 + i) 0)) ∧
    service_id exKey = some exIss ∧ secret_key exKey = some exSec := by
  refine ⟨?_, exKey_service_id, exKey_secret_key⟩
  intro key h73 hb1 hb2 hb3
  refine ⟨?_, ?_, ?_, ?_, ?_, ?_⟩
  · unfold service_id
    rw [if_pos ⟨h73, hb1, hb2⟩]
  · unfold secret_key
    rw [if_pos ⟨by omega, hb3⟩]
  · simp only [List.length_take, List.length_drop]
    omega
  · simp only [List.length_drop]
    omega
  · intro i hi
    exact slice_getD key _ i hi
  · intro i hi
    simp [List.getD_eq_getElem?_getD, List.getElem?_drop]

/-- Witness for the amended C1: the theorem instantiated on the documented
example key. -/
theorem extraction_fixed_offsets_witness :
    service_id exKey = some ((exKey.drop (exKey.length - 73)).take 36) ∧
    secret_key exKey = some (exKey.drop (exKey.length - 36)) ∧
    ((exKey.drop (exKey.length - 73)).take 36).length = 36 ∧
    (exKey.drop (exKey.length - 36)).length = 36 ∧
    (∀ i, i < 36 →
      ((exKey.drop (exKey.length - 73)).take 36).getD i 0 = exKey.getD (exKey.length - 73 + i) 0) ∧
    (∀ i, i < 36 →
      (exKey.drop (exKey.length - 36)).getD i 0 = exKey.getD (exKey.length - 36 + i) 0) :=
  extraction_fixed_offsets.1 exKey (by decide) (by decide) (by decide) (by decide)

/-- C2: every token produced by `create_jwt` is the JWT compact
serialization — three dot-separated base64url segments, the first encoding
the header that declares HMAC-SHA256, the second encoding exactly the claims
`iss = service_id api_key` and `iat = now`, the third the HMAC-SHA256
signature keyed by `secret_key api_key` over the first two segments. -/
theorem create_jwt_token_structure (key : List Nat) (now : Nat) (tok : List Nat)
    (h : create_jwt key now = some tok) :
    ∃ iss sec,
      service_id key = some iss ∧ secret_key key = some sec ∧
      tok = encodeB64 headerJson ++ 46 :: encodeB64 (claimsJson iss now) ++ 46 ::
        encodeB64 (hmacSha256 sec
          (encodeB64 headerJson ++ 46 :: encodeB64 (claimsJson iss now))) ∧
      headerJson = strBytes ("\x7b\"typ\":\"JWT\",\"alg\":\"HS256\"\x7d") ∧
      claimsJson iss now = strBytes ("\x7b\"iss\":\"") ++ escapeJson iss ++
        strBytes ("\",\"iat\":") ++ toDecBytes now ++ strBytes ("\x7d") ∧
      46 ∉ encodeB64 headerJson ∧
      46 ∉ encodeB64 (claimsJson iss now) ∧
      46 ∉ encodeB64 (hmacSha256 sec
        (encodeB64 headerJson ++ 46 :: encodeB64 (claimsJson iss now))) ∧
      (∀ y ∈ encodeB64 headerJson, isB64Byte y = true) ∧
      (∀ y ∈ encodeB64 (claimsJson iss now), isB64Byte y = true) ∧
      (∀ y ∈ encodeB64 (hmacSha256 sec
        (encodeB64 headerJson ++ 46 :: encodeB64 (claimsJson iss now))), isB64Byte y = true) := by
  unfold create_jwt at h
  cases hs : service_id key <;> rw [hs] at h
  · simp at h
  · cases hc : secret_key key <;> rw [hc] at h
    · simp at h
    · simp only [Option.some.injEq] at h
      subst h
      exact ⟨_, _, rfl, rfl, rfl, rfl, rfl, encodeB64_no_dot _, encodeB64_no_dot _,
        encodeB64_no_dot _, encodeB64_isB64 _, encodeB64_isB64 _, encodeB64_isB64 _⟩

/-- Witness for C2: the token structure on the documented example key at
clock second 0. -/
theorem create_jwt_token_structure_witness :
    ∃ iss sec,
      service_id exKey = some iss ∧ secret_key exKey = some sec ∧
      jwtEncode exIss exSec 0 = encodeB64 headerJson ++ 46 :: encodeB64 (claimsJson iss 0) ++ 46 ::
        encodeB64 (hmacSha256 sec
          (encodeB64 headerJson ++ 46 :: encodeB64 (claimsJson iss 0))) ∧
      headerJson = strBytes ("\x7b\"typ\":\"JWT\",\"alg\":\"HS256\"\x7d") ∧
      claimsJson iss 0 = strBytes ("\x7b\"iss\":\"") ++ escapeJson iss ++
        strBytes ("\",\"iat\":") ++ toDecBytes 0 ++ strBytes ("\x7d") ∧
      46 ∉ encodeB64 headerJson ∧
      46 ∉ encodeB64 (claimsJson iss 0) ∧
      46 ∉ encodeB64 (hmacSha256 sec
        (encodeB64 headerJson ++ 46 :: encodeB64 (claimsJson iss 0))) ∧
      (∀ y ∈ encodeB64 headerJson, isB64Byte y = true) ∧
      (∀ y ∈ encodeB64 (claimsJson iss 0), isB64Byte y = true) ∧
      (∀ y ∈ encodeB64 (hmacSha256 sec
        (encodeB64 headerJson ++ 46 :: encodeB64 (claimsJson iss 0))), isB64Byte y = true) :=
  create_jwt_token_structure exKey 0 (jwtEncode exIss exSec 0) (exKey_create_jwt 0)

/-- C3 counterexample: with a key shorter than 73 bytes, `send_email` and
`send_sms` do not return an `InvalidApiKey` error result — the call panics
(out-of-bounds slice) before any request exists. -/
theorem short_key_no_error_result :
    send_email (NotifyClient.new (strBytes ("my_test_key")) none) ("john.doe@example.com")
      ("217a419e") none none 0 = DispatchOutcome.panic ∧
    send_sms (NotifyClient.new (strBytes ("my_test_key")) none) ("+447900900123")
      ("217a419e") none none none 0 = DispatchOutcome.panic :=
  ⟨rfl, rfl⟩

/-- C3 (amended): for every API key shorter than 73 bytes, `send_email` and
`send_sms` fail before any network activity — no HTTP request is handed to
the transport — but the failure is a panic (process abort on the
out-of-bounds slice), not an explicit `InvalidApiKey` error result. -/
theorem short_key_dispatch_panics (c : NotifyClient) (h : c.api_key.length < 73)
    (ea pn tid : String) (p : Option (List (String × JsonValue))) (r sid : Option String)
    (now : Nat) :
    send_email c ea tid p r now = DispatchOutcome.panic ∧
    send_sms c pn tid p r sid now = DispatchOutcome.panic := by
  have hj := create_jwt_short c.api_key h now
  constructor
  · unfold send_email send_notification
    rw [hj]
  · unfold send_sms send_notification
    rw [hj]

/-- Witness for the amended C3 on a concrete 5-byte key. -/
theorem short_key_dispatch_panics_witness :
    send_email (NotifyClient.new (strBytes ("short")) none) ("e") ("t") none none 0 =
      DispatchOutcome.panic ∧
    send_sms (NotifyClient.new (strBytes ("short")) none) ("p") ("t") none none none 0 =
      DispatchOutcome.panic :=
  short_key_dispatch_panics (NotifyClient.new (strBytes ("short")) none) (by decide)
    ("e") ("p") ("t") none none none 0

/-- C4 counterexample: on a key for which token derivation fails, the
dispatch call does not return an explicit failure result — it panics (the
`unwrap` / propagated slice panic), although no HTTP request is sent. -/
theorem failed_derivation_is_crash :
    create_jwt (strBytes ("abc")) 5 = none ∧
    send_sms (NotifyClient.new (strBytes ("abc")) none) ("+447900900123") ("tid")
      none none none 5 = DispatchOutcome.panic :=
  ⟨rfl, rfl⟩

/-- C4 (amended): whenever token derivation fails, no HTTP request is handed
to the transport — but the call fails by panicking, not by returning an
explicit failure result to the caller. -/
theorem derivation_failure_no_request (c : NotifyClient) (now : Nat)
    (h : create_jwt c.api_key now = none) (nt : NotificationType)
    (body : List (String × JsonValue)) (p : Option (List (String × JsonValue)))
    (r sid : Option String) (ea pn tid : String) :
    send_notification c nt body p r sid now = DispatchOutcome.panic ∧
    send_email c ea tid p r now = DispatchOutcome.panic ∧
    send_sms c pn tid p r sid now = DispatchOutcome.panic := by
  refine ⟨?_, ?_, ?_⟩
  · unfold send_notification
    rw [h]
  · unfold send_email send_notification
    rw [h]
  · unfold send_sms send_notification
    rw [h]

/-- Witness for the amended C4 on a concrete derivation-failing client. -/
theorem derivation_failure_no_request_witness :
    send_notification (NotifyClient.new (strBytes ("x")) none) NotificationType.EMAIL []
      none none none 0 = DispatchOutcome.panic ∧
    send_email (NotifyClient.new (strBytes ("x")) none) ("e") ("t") none none 0 =
      DispatchOutcome.panic ∧
    send_sms (NotifyClient.new (strBytes ("x")) none) ("p") ("t") none none none 0 =
      DispatchOutcome.panic :=
  derivation_failure_no_request (NotifyClient.new (strBytes ("x")) none) 0 (by decide)
    NotificationType.EMAIL [] none none none ("e") ("p") ("t")

/-- Optional-field facts for the email body: each optional key is present
exactly when supplied, with the supplied value, and with no optional
supplied the key list is exactly the two required keys. -/
theorem mergedBody_email_facts (ea tid : String)
    (p : Option (List (String × JsonValue))) (r : Option String) :
    mapLookup (mergedBody [(("email_address"), JsonValue.str ea),
      (("template_id"), JsonValue.str tid)] p r none) ("personalisation") =
      Option.map JsonValue.obj p ∧
    mapLookup (mergedBody [(("email_address"), JsonValue.str ea),
      (("template_id"), JsonValue.str tid)] p r none) ("reference") =
      Option.map JsonValue.str r ∧
    mapLookup (mergedBody [(("email_address"), JsonValue.str ea),
      (("template_id"), JsonValue.str tid)] p r none) ("sms_sender_id") = none ∧
    (("personalisation") ∈ mapKeys (mergedBody [(("email_address"), JsonValue.str ea),
      (("template_id"), JsonValue.str tid)] p r none) ↔ p.isSome = true) ∧
    (("reference") ∈ mapKeys (mergedBody [(("email_address"), JsonValue.str ea),
      (("template_id"), JsonValue.str tid)] p r none) ↔ r.isSome = true) ∧
    (p = none → r = none → mapKeys (mergedBody [(("email_address"), JsonValue.str ea),
      (("template_id"), JsonValue.str tid)] p r none) = [("email_address"), ("template_id")]) := by
  have h1 := mergedBody_personalisation [(("email_address"), JsonValue.str ea),
    (("template_id"), JsonValue.str tid)] p r none rfl
  have h2 := mergedBody_reference [(("email_address"), JsonValue.str ea),
    (("template_id"), JsonValue.str tid)] p r none rfl
  have h3 := mergedBody_sms_sender_id [(("email_address"), JsonValue.str ea),
    (("template_id"), JsonValue.str tid)] p r none rfl
  refine ⟨h1, h2, h3, ?_, ?_, ?_⟩
  · rw [mem_mapKeys_iff, h1]
    cases p <;> simp
  · rw [mem_mapKeys_iff, h2]
    cases r <;> simp
  · intro hp hr
    subst hp
    subst hr
    rfl

/-- Optional-field facts for the sms body. -/
theorem mergedBody_sms_facts (pn tid : String)
    (p : Option (List (String × JsonValue))) (r sid : Option String) :
    mapLookup (mergedBody [(("phone_number"), JsonValue.str pn),
      (("template_id"), JsonValue.str tid)] p r sid) ("personalisation") =
      Option.map JsonValue.obj p ∧
    mapLookup (mergedBody [(("phone_number"), JsonValue.str pn),
      (("template_id"), JsonValue.str tid)] p r sid) ("reference") =
      Option.map JsonValue.str r ∧
    mapLookup (mergedBody [(("phone_number"), JsonValue.str pn),
      (("template_id"), JsonValue.str tid)] p r sid) ("sms_sender_id") =
      Option.map JsonValue.str sid ∧
    (("sms_sender_id") ∈ mapKeys (mergedBody [(("phone_number"), JsonValue.str pn),
      (("template_id"), JsonValue.str tid)] p r sid) ↔ sid.isSome = true) ∧
    (p = none → r = none → sid = none →
      mapKeys (mergedBody [(("phone_number"), JsonValue.str pn),
        (("template_id"), JsonValue.str tid)] p r sid) = [("phone_number"), ("template_id")]) := by
  have h1 := mergedBody_personalisation [(("phone_number"), JsonValue.str pn),
    (("template_id"), JsonValue.str tid)] p r sid rfl
  have h2 := mergedBody_reference [(("phone_number"), JsonValue.str pn),
    (("template_id"), JsonValue.str tid)] p r sid rfl
  have h3 := mergedBody_sms_sender_id [(("phone_number"), JsonValue.str pn),
    (("template_id"), JsonValue.str tid)] p r sid rfl
  refine ⟨h1, h2, h3, ?_, ?_⟩
  · rw [mem_mapKeys_iff, h3]
    cases sid <;> simp
  · intro hp hr hs
    subst hp
    subst hr
    subst hs
    rfl

/-- C5: on every successful dispatch the optional fields `personalisation`,
`reference` and (for sms) `sms_sender_id` appear in the JSON body exactly
when supplied, carrying the supplied value (never null); with every
optional omitted the email body holds exactly `email_address` and
`template_id`, the sms body exactly `phone_number` and `template_id`. -/
theorem optional_fields_present_iff (c : NotifyClient) (now : Nat) (tok : List Nat)
    (htok : create_jwt c.api_key now = some tok) (ea pn tid : String)
    (p : Option (List (String × JsonValue))) (r sid : Option String) :
    (∃ req, send_email c ea tid p r now = DispatchOutcome.sent req ∧
      mapLookup req.body ("personalisation") = Option.map JsonValue.obj p ∧
      mapLookup req.body ("reference") = Option.map JsonValue.str r ∧
      mapLookup req.body ("sms_sender_id") = none ∧
      (("personalisation") ∈ mapKeys req.body ↔ p.isSome = true) ∧
      (("reference") ∈ mapKeys req.body ↔ r.isSome = true) ∧
      (p = none → r = none → mapKeys req.body = [("email_address"), ("template_id")])) ∧
    (∃ req, send_sms c pn tid p r sid now = DispatchOutcome.sent req ∧
      mapLookup req.body ("personalisation") = Option.map JsonValue.obj p ∧
      mapLookup req.body ("reference") = Option.map JsonValue.str r ∧
      mapLookup req.body ("sms_sender_id") = Option.map JsonValue.str sid ∧
      (("sms_sender_id") ∈ mapKeys req.body ↔ sid.isSome = true) ∧
      (p = none → r = none → sid = none →
        mapKeys req.body = [("phone_number"), ("template_id")])) := by
  constructor
  · refine ⟨_, send_email_sent c ea tid p r now tok htok, ?_⟩
    exact mergedBody_email_facts ea tid p r
  · refine ⟨_, send_sms_sent c pn tid p r sid now tok htok, ?_⟩
    exact mergedBody_sms_facts pn tid p r sid

/-- Witness for C5 on the documented example key at clock second 0 with all
optionals supplied on the sms side left to `none`. -/
theorem optional_fields_present_iff_witness :
    (∃ req, send_email (NotifyClient.new exKey none) ("john.doe@example.com")
        ("217a419e") none none 0 = DispatchOutcome.sent req ∧
      mapLookup req.body ("personalisation") = Option.map JsonValue.obj none ∧
      mapLookup req.body ("reference") = Option.map JsonValue.str none ∧
      mapLookup req.body ("sms_sender_id") = none ∧
      (("personalisation") ∈ mapKeys req.body ↔
        (none : Option (List (String × JsonValue))).isSome = true) ∧
      (("reference") ∈ mapKeys req.body ↔ (none : Option String).isSome = true) ∧
      (none = (none : Option (List (String × JsonValue))) → none = (none : Option String) →
        mapKeys req.body = [("email_address"), ("template_id")])) ∧
    (∃ req, send_sms (NotifyClient.new exKey none) ("+447900900123") ("217a419e")
        none none none 0 = DispatchOutcome.sent req ∧
      mapLookup req.body ("personalisation") = Option.map JsonValue.obj none ∧
      mapLookup req.body ("reference") = Option.map JsonValue.str none ∧
      mapLookup req.body ("sms_sender_id") = Option.map JsonValue.str none ∧
      (("sms_sender_id") ∈ mapKeys req.body ↔ (none : Option String).isSome = true) ∧
      (none = (none : Option (List (String × JsonValue))) → none = (none : Option String) →
        none = (none : Option String) →
        mapKeys req.body = [("phone_number"), ("template_id")])) :=
  optional_fields_present_iff (NotifyClient.new exKey none) 0 (jwtEncode exIss exSec 0)
    (exKey_create_jwt 0) ("john.doe@example.com") ("+447900900123") ("217a419e")
    none none none

/-- C6: a supplied personalisation mapping reaches the dispatched email body
unchanged under the `personalisation` key. -/
theorem personalisation_unchanged (c : NotifyClient) (now : Nat) (tok : List Nat)
    (htok : create_jwt c.api_key now = some tok) (ea tid : String)
    (r : Option String) (pmap : List (String × JsonValue)) :
    ∃ req, send_email c ea tid (some pmap) r now = DispatchOutcome.sent req ∧
      mapLookup req.body ("personalisation") = some (JsonValue.obj pmap) :=
  ⟨_, send_email_sent c ea tid (some pmap) r now tok htok,
    mergedBody_personalisation [(("email_address"), JsonValue.str ea),
      (("template_id"), JsonValue.str tid)] (some pmap) r none rfl⟩

/-- Witness for C6: a one-entry personalisation mapping on the documented
example key. -/
theorem personalisation_unchanged_witness :
    ∃ req, send_email (NotifyClient.new exKey none) ("john.doe@example.com") ("217a419e")
        (some [(("my_var"), JsonValue.str ("my value"))]) none 0 = DispatchOutcome.sent req ∧
      mapLookup req.body ("personalisation") =
        some (JsonValue.obj [(("my_var"), JsonValue.str ("my value"))]) :=
  personalisation_unchanged (NotifyClient.new exKey none) 0 (jwtEncode exIss exSec 0)
    (exKey_create_jwt 0) ("john.doe@example.com") ("217a419e") none
    [(("my_var"), JsonValue.str ("my value"))]

/-- C7: every dispatched request is an HTTP POST to the base URL extended
with the variant path, carrying exactly the `User-Agent`, `Authorization`
(value `Bearer ` followed by the derived token) and
`Content-Type: application/json` headers, with the assembled JSON body. -/
theorem dispatch_request_wire_format (c : NotifyClient) (now : Nat) (tok : List Nat)
    (htok : create_jwt c.api_key now = some tok) (ea pn tid : String)
    (p : Option (List (String × JsonValue))) (r sid : Option String) :
    (∃ req, send_email c ea tid p r now = DispatchOutcome.sent req ∧
      req.method = "POST" ∧
      req.url = c.notify_server ++ ("/v2/notifications/email") ∧
      req.headers = [(("User-Agent"), strBytes ("rust-client-pre-alpha")),
        (("Authorization"), strBytes ("Bearer ") ++ tok),
        (("Content-Type"), strBytes ("application/json"))] ∧
      req.body = mergedBody [(("email_address"), JsonValue.str ea),
        (("template_id"), JsonValue.str tid)] p r none) ∧
    (∃ req, send_sms c pn tid p r sid now = DispatchOutcome.sent req ∧
      req.method = "POST" ∧
      req.url = c.notify_server ++ ("/v2/notifications/sms") ∧
      req.headers = [(("User-Agent"), strBytes ("rust-client-pre-alpha")),
        (("Authorization"), strBytes ("Bearer ") ++ tok),
        (("Content-Type"), strBytes ("application/json"))] ∧
      req.body = mergedBody [(("phone_number"), JsonValue.str pn),
        (("template_id"), JsonValue.str tid)] p r sid) :=
  ⟨⟨_, send_email_sent c ea tid p r now tok htok, rfl, rfl, rfl, rfl⟩,
   ⟨_, send_sms_sent c pn tid p r sid now tok htok, rfl, rfl, rfl, rfl⟩⟩

/-- Witness for C7 on the documented example key at clock second 0. -/
theorem dispatch_request_wire_format_witness :
    (∃ req, send_email (NotifyClient.new exKey none) ("e") ("t") none none 0 =
        DispatchOutcome.sent req ∧
      req.method = "POST" ∧
      req.url = (NotifyClient.new exKey none).notify_server ++ ("/v2/notifications/email") ∧
      req.headers = [(("User-Agent"), strBytes ("rust-client-pre-alpha")),
        (("Authorization"), strBytes ("Bearer ") ++ jwtEncode exIss exSec 0),
        (("Content-Type"), strBytes ("application/json"))] ∧
      req.body = mergedBody [(("email_address"), JsonValue.str ("e")),
        (("template_id"), JsonValue.str ("t"))] none none none) ∧
    (∃ req, send_sms (NotifyClient.new exKey none) ("p") ("t") none none none 0 =
        DispatchOutcome.sent req ∧
      req.method = "POST" ∧
      req.url = (NotifyClient.new exKey none).notify_server ++ ("/v2/notifications/sms") ∧
      req.headers = [(("User-Agent"), strBytes ("rust-client-pre-alpha")),
        (("Authorization"), strBytes ("Bearer ") ++ jwtEncode exIss exSec 0),
        (("Content-Type"), strBytes ("application/json"))] ∧
      req.body = mergedBody [(("phone_number"), JsonValue.str ("p")),
        (("template_id"), JsonValue.str ("t"))] none none none) :=
  dispatch_request_wire_format (NotifyClient.new exKey none) 0 (jwtEncode exIss exSec 0)
    (exKey_create_jwt 0) ("e") ("p") ("t") none none none

/-- C8 counterexample: two derivations within the same clock second yield
the very same token, so consecutive calls do not always produce two
distinct tokens with different `iat` claims. -/
theorem same_second_identical_token :
    create_jwt exKey 1700000000 = create_jwt exKey 1700000000 ∧
    create_jwt exKey 1700000000 = some (jwtEncode exIss exSec 1700000000) :=
  ⟨rfl, exKey_create_jwt 1700000000⟩

/-- C8 (amended): no token is cached — each call derives from the clock at
call time — and two derivations at different clock seconds produce distinct
tokens with different serialized `iat` claims. -/
theorem fresh_iat_distinct_tokens (key : List Nat) (hk : ∀ b ∈ key, b < 256)
    (t1 t2 : Nat) (hne : t1 ≠ t2) (tok1 tok2 : List Nat)
    (h1 : create_jwt key t1 = some tok1) (h2 : create_jwt key t2 = some tok2) :
    tok1 ≠ tok2 ∧
    ∀ iss, service_id key = some iss → claimsJson iss t1 ≠ claimsJson iss t2 := by
  unfold create_jwt at h1 h2
  cases hs : service_id key with
  | none =>
      rw [hs] at h1
      simp at h1
  | some iss =>
      rw [hs] at h1 h2
      cases hc : secret_key key with
      | none =>
          rw [hc] at h1
          simp at h1
      | some sec =>
          rw [hc] at h1 h2
          simp only [Option.some.injEq] at h1 h2
          subst h1
          subst h2
          have hiss : ∀ b ∈ iss, b < 256 := fun b hb =>
            hk b (service_id_subset key iss hs b hb)
          constructor
          · intro he
            exact hne (jwtEncode_inj_iat iss sec hiss t1 t2 he)
          · intro iss2 hs2
            injection hs2 with hi
            subst hi
            intro hce
            exact hne (claimsJson_inj_iat iss t1 t2 hce)

/-- Witness for the amended C8: derivations at clock seconds 0 and 1 on the
documented example key give distinct tokens and distinct claims. -/
theorem fresh_iat_distinct_tokens_witness :
    jwtEncode exIss exSec 0 ≠ jwtEncode exIss exSec 1 ∧
    ∀ iss, service_id exKey = some iss → claimsJson iss 0 ≠ claimsJson iss 1 :=
  fresh_iat_distinct_tokens exKey (by decide) 0 1 (by decide) _ _
    (exKey_create_jwt 0) (exKey_create_jwt 1)

/-- C9: extraction is not total on keys of byte length at least 73 — a key
with a multibyte character straddling a slice offset makes extraction panic
— yet it succeeds on every key whose offsets `len-73`, `len-37`, `len-36`
are character boundaries, in particular on every all-ASCII key. -/
theorem extraction_partial_on_boundaries :
    (∃ key : List Nat, 73 ≤ key.length ∧
      (service_id key = none ∨ secret_key key = none)) ∧
    (∀ key : List Nat, 73 ≤ key.length →
      isCharBoundary key (key.length - 73) = true →
      isCharBoundary key (key.length - 37) = true →
      isCharBoundary key (key.length - 36) = true →
      (service_id key).isSome = true ∧ (secret_key key).isSome = true) ∧
    (∀ key : List Nat, (∀ b ∈ key, b < 128) → 73 ≤ key.length →
      (service_id key).isSome = true ∧ (secret_key key).isSome = true) := by
  have hbound : ∀ key : List Nat, 73 ≤ key.length →
      isCharBoundary key (key.length - 73) = true →
      isCharBoundary key (key.length - 37) = true →
      isCharBoundary key (key.length - 36) = true →
      (service_id key).isSome = true ∧ (secret_key key).isSome = true := by
    intro key h73 hb1 hb2 hb3
    constructor
    · unfold service_id
      rw [if_pos ⟨h73, hb1, hb2⟩]
      rfl
    · unfold secret_key
      rw [if_pos ⟨by omega, hb3⟩]
      rfl
  refine ⟨⟨List.replicate 36 97 ++ 195 :: 169 :: List.replicate 35 97, by decide,
    Or.inr (by decide)⟩, hbound, ?_⟩
  intro key hascii h73
  exact hbound key h73 (ascii_isCharBoundary key hascii _ (by omega))
    (ascii_isCharBoundary key hascii _ (by omega))
    (ascii_isCharBoundary key hascii _ (by omega))

/-- Witness for C9: the all-ASCII documented example key extracts without
failure. -/
theorem extraction_partial_on_boundaries_witness :
    (service_id exKey).isSome = true ∧ (secret_key exKey).isSome = true :=
  extraction_partial_on_boundaries.2.2 exKey (by decide) (by decide)

/-- C10: constructing the client never validates the key — `NotifyClient.new`
is total, stores any key unchanged (and defaults the server URL) — and a
malformed key only manifests later, when `send_email` or `send_sms` runs. -/
theorem new_stores_key_unvalidated :
    (∀ (key : List Nat) (srv : Option String), (NotifyClient.new key srv).api_key = key) ∧
    (∀ key : List Nat, (NotifyClient.new key none).notify_server = DEFAULT_BASE_URL) ∧
    (∀ (key : List Nat) (s : String), (NotifyClient.new key (some s)).notify_server = s) ∧
    (∀ key : List Nat, key.length < 73 → ∀ (ea pn tid : String)
      (p : Option (List (String × JsonValue))) (r sid : Option String) (now : Nat),
      send_email (NotifyClient.new key none) ea tid p r now = DispatchOutcome.panic ∧
      send_sms (NotifyClient.new key none) pn tid p r sid now = DispatchOutcome.panic) := by
  refine ⟨fun key srv => rfl, fun key => rfl, fun key s => rfl, ?_⟩
  intro key hlen ea pn tid p r sid now
  have hj := create_jwt_short key hlen now
  constructor
  · unfold send_email send_notification
    rw [show (NotifyClient.new key none).api_key = key from rfl, hj]
  · unfold send_sms send_notification
    rw [show (NotifyClient.new key none).api_key = key from rfl, hj]

/-- Witness for C10: a one-byte key is stored unvalidated and only the later
dispatch panics. -/
theorem new_stores_key_unvalidated_witness :
    send_email (NotifyClient.new (strBytes ("k")) none) ("e") ("t") none none 0 =
      DispatchOutcome.panic ∧
    send_sms (NotifyClient.new (strBytes ("k")) none) ("p") ("t") none none none 0 =
      DispatchOutcome.panic :=
  new_stores_key_unvalidated.2.2.2 (strBytes ("k")) (by decide) ("e") ("p") ("t")
    none none none 0
